import Mathlib

/-!
# Verification of the pool-configuration core (`src/base/net/stratum/Pool.cpp`)

A shallow embedding of xmrig's `Pool` configuration record and its operations:
construction from a structured-data (JSON-like) object, validation, equality,
serialization back to structured data, enablement gating, the keep-alive
mutator and the color-annotated printable name.

The repository slice contains only `Pool.cpp`; the declarations it relies on
(`Pool.h` accessors and constants, the `Url` endpoint class, and the generic
`Json::get*` helpers) are modelled from the specification, each marked with a
`Modelled from the spec:` doc comment.

Machine integers are modelled as `Int`/`Nat` with the range checks the JSON
layer performs (`IsInt` as the int32 range, `IsUint64` as the uint64 range)
made explicit.
-/

namespace Xmrig

/-! ## Structured-data values (the rapidjson boundary) -/

/-- A structured-data value: null, boolean, number or string.  Numbers are
modelled as unbounded integers; the access helpers apply the range checks
(`IsInt`, `IsUint64`) explicitly. -/
inductive JsonValue where
  | null : JsonValue
  | bool : Bool → JsonValue
  | num : Int → JsonValue
  | str : String → JsonValue
deriving DecidableEq

/-- A structured-data object: string-keyed fields, first occurrence wins. -/
abbrev JsonObject := List (String × JsonValue)

/-- Find a member by key (first match), `none` when absent. -/
def jfind : JsonObject → String → Option JsonValue
  | [], _ => none
  | kv :: rest, key => if kv.fst = key then some kv.snd else jfind rest key

/-- The string carried by a value, `none` unless it is a string
(rapidjson `IsString`). -/
def JsonValue.asStr : JsonValue → Option String
  | JsonValue.str s => some s
  | _ => none

/-- rapidjson `IsInt`: a number within the int32 range. -/
def JsonValue.isInt : JsonValue → Bool
  | JsonValue.num i => decide (-2147483648 ≤ i ∧ i < 2147483648)
  | _ => false

/-- rapidjson `GetInt` (meaningful only when `isInt`). -/
def JsonValue.getInt : JsonValue → Int
  | JsonValue.num i => i
  | _ => 0

/-- rapidjson `IsBool`. -/
def JsonValue.isBool : JsonValue → Bool
  | JsonValue.bool _ => true
  | _ => false

/-- rapidjson `GetBool` (meaningful only when `isBool`). -/
def JsonValue.getBool : JsonValue → Bool
  | JsonValue.bool b => b
  | _ => false

/-- Modelled from the spec: generic get-string helper (`Json::getString`,
absent from src/) — the member's string when present and a string, else a
null `String` (here `none`). -/
def Json.getString (o : JsonObject) (k : String) : Option String :=
  (jfind o k).bind JsonValue.asStr

/-- Modelled from the spec: generic get-bool helper (`Json::getBool`, absent
from src/) — the member's boolean when present and boolean, else the default. -/
def Json.getBool (o : JsonObject) (k : String) (d : Bool) : Bool :=
  match jfind o k with
  | some (JsonValue.bool b) => b
  | _ => d

/-- Modelled from the spec: generic get-uint64 helper (`Json::getUint64`,
absent from src/) — the member's value when present and within the uint64
range, else the default. -/
def Json.getUint64 (o : JsonObject) (k : String) (d : Nat) : Nat :=
  match jfind o k with
  | some (JsonValue.num i) =>
    if 0 ≤ i ∧ i < 18446744073709551616 then i.toNat else d
  | _ => d

/-- Modelled from the spec: generic get-value helper (`Json::getValue`, absent
from src/) — the member itself when present, else a null value. -/
def Json.getValue (o : JsonObject) (k : String) : JsonValue :=
  (jfind o k).getD JsonValue.null

/-- `String::toJSON()`: a null string serializes as JSON null, otherwise as the
string itself. -/
def strToJSON : Option String → JsonValue
  | none => JsonValue.null
  | some s => JsonValue.str s

/-! ## Character-list utilities used by the endpoint parser -/

/-- Strip an expected leading character sequence, returning the remainder. -/
def stripSeq : List Char → List Char → Option (List Char)
  | [], l => some l
  | _ :: _, [] => none
  | a :: as, b :: bs => if a = b then stripSeq as bs else none

/-- Does the sequence occur anywhere in the list (C `strstr`)? -/
def hasSeq (pat : List Char) : List Char → Bool
  | [] => (stripSeq pat []).isSome
  | c :: rest => (stripSeq pat (c :: rest)).isSome || hasSeq pat rest

/-- Split a character list on a separator character. -/
def splitOnCharAux (c : Char) : List Char → List Char → List (List Char)
  | [], acc => [acc.reverse]
  | x :: xs, acc =>
    if x = c then acc.reverse :: splitOnCharAux c xs []
    else splitOnCharAux c xs (x :: acc)

/-- Split a character list on a separator character. -/
def splitOnChar (c : Char) (l : List Char) : List (List Char) :=
  splitOnCharAux c l []

/-- Accumulate a decimal value; fails on any non-digit. -/
def digitsVal : List Char → Nat → Option Nat
  | [], acc => some acc
  | c :: cs, acc =>
    if c.isDigit then digitsVal cs (acc * 10 + (c.toNat - 48)) else none

/-- Parse a non-empty all-digit character list as a decimal number. -/
def digitsToNat (l : List Char) : Option Nat :=
  if l.isEmpty then none else digitsVal l 0

/-! ## The endpoint (`Url`) — modelled from the spec -/

/-- Modelled from the spec: the parsed endpoint representation (the `Url`
class, absent from src/) — host/port/scheme with TLS inference from the
scheme, plus the original url string returned by `url()`.  An invalid
endpoint has no host and carries no other data. -/
structure Url where
  url : Option String
  host : Option String
  port : Nat
  tls : Bool
deriving DecidableEq

/-- The explicitly invalid endpoint: no host, nothing populated. -/
def Url.invalid : Url := { url := none, host := none, port := 0, tls := false }

/-- Modelled from the spec: an endpoint is valid iff it has a host. -/
def Url.isValid (u : Url) : Bool := u.host.isSome

/-- Modelled from the spec: TLS as inferred from the scheme (or requested at
build time). -/
def Url.isTLS (u : Url) : Bool := u.tls

/-- Modelled from the spec: default stratum port used when the url string has
no explicit port (constant in the `Url` class, absent from src/). -/
def kDefaultPort : Nat := 3333

/-- The TLS scheme recognized by the parser. -/
def sslScheme : List Char := "stratum+ssl://".data

/-- The plaintext scheme recognized by the parser. -/
def tcpScheme : List Char := "stratum+tcp://".data

/-- The scheme separator. -/
def schemeSep : List Char := "://".data

/-- Modelled from the spec: scheme handling of the endpoint parser — a
recognized scheme fixes the TLS inference, an unrecognized scheme makes the
whole url unparseable, no scheme means plaintext. -/
def schemeSplit (l : List Char) : Option (Bool × List Char) :=
  match stripSeq sslScheme l with
  | some rest => some (true, rest)
  | none =>
    match stripSeq tcpScheme l with
    | some rest => some (false, rest)
    | none => if hasSeq schemeSep l then none else some (false, l)

/-- Modelled from the spec: host/port split of the part after the scheme.
An empty remainder, a path-like remainder, an empty host or a malformed port
yield the invalid endpoint — never a partially-populated one. -/
def Url.fromChars (s : String) (tls : Bool) (base : List Char) : Url :=
  if base.isEmpty || (base.headD ' ' == '/') then Url.invalid
  else
    match splitOnChar ':' base with
    | [h] => { url := some s, host := some (String.mk h), port := kDefaultPort, tls := tls }
    | [h, pdigits] =>
      if h.isEmpty then Url.invalid
      else
        match digitsToNat pdigits with
        | some n =>
          if n < 65536 then { url := some s, host := some (String.mk h), port := n, tls := tls }
          else Url.invalid
        | none => Url.invalid
    | _ => Url.invalid

/-- Modelled from the spec: parse a url string into an endpoint; unparseable
input produces the invalid endpoint rather than failing. -/
def Url.parseStr (s : String) : Url :=
  match schemeSplit s.data with
  | none => Url.invalid
  | some (tls, base) => Url.fromChars s tls base

/-- Construction from a possibly-null string: a null string is invalid. -/
def Url.parse : Option String → Url
  | none => Url.invalid
  | some s => Url.parseStr s

/-- Modelled from the spec: direct host/port construction for programmatic
(non-URL) use. -/
def Url.build (host : String) (port : Nat) (tls : Bool) : Url :=
  { url := some (host ++ ":" ++ toString port), host := some host, port := port, tls := tls }

/-! ## The pool configuration record -/

/-- The option flag set of `Pool` (`m_flags`, a bitset with `FLAG_ENABLED` and
`FLAG_TLS`). -/
@[ext]
structure Flags where
  enabled : Bool
  tls : Bool
deriving DecidableEq

/-- The connection mode (`Pool::Mode`). -/
inductive Mode where
  | MODE_POOL : Mode
  | MODE_DAEMON : Mode
  | MODE_SELF_SELECT : Mode
deriving DecidableEq

/-- Modelled from the spec: the default daemon polling cadence
(`kDefaultPollInterval`, declared in Pool.h, absent from src/). -/
def kDefaultPollInterval : Nat := 1000

/-- Modelled from the spec: the keep-alive "default timeout" sentinel
(`kKeepAliveTimeout`, declared in Pool.h, absent from src/). -/
def kKeepAliveTimeout : Int := 60

/-- The pool configuration record (`Pool`'s data members with their in-class
defaults; the flag set starts with only `FLAG_ENABLED`). -/
@[ext]
structure Pool where
  keepAlive : Int := 0
  flags : Flags := { enabled := true, tls := false }
  mode : Mode := Mode.MODE_POOL
  fingerprint : Option String := none
  password : Option String := none
  rigId : Option String := none
  user : Option String := none
  pollInterval : Nat := kDefaultPollInterval
  url : Url := Url.invalid
  daemon : Url := Url.invalid
deriving DecidableEq

/-- JSON field name (`Pool.cpp`). -/
def kDaemon : String := "daemon"

/-- JSON field name (`Pool.cpp`). -/
def kDaemonPollInterval : String := "daemon-poll-interval"

/-- JSON field name (`Pool.cpp`). -/
def kEnabled : String := "enabled"

/-- JSON field name (`Pool.cpp`). -/
def kFingerprint : String := "tls-fingerprint"

/-- JSON field name (`Pool.cpp`). -/
def kKeepalive : String := "keepalive"

/-- JSON field name (`Pool.cpp`). -/
def kPass : String := "pass"

/-- JSON field name (`Pool.cpp`). -/
def kRigId : String := "rig-id"

/-- JSON field name (`Pool.cpp`). -/
def kSelfSelect : String := "self-select"

/-- JSON field name (`Pool.cpp`). -/
def kTls : String := "tls"

/-- JSON field name (`Pool.cpp`). -/
def kUrl : String := "url"

/-- JSON field name (`Pool.cpp`). -/
def kUser : String := "user"

/-- Modelled from the spec: the integer keep-alive mutator (declared in
Pool.h, absent from src/) — integer values pass through unchanged, negative
values included. -/
def Pool.setKeepAliveInt (p : Pool) (n : Int) : Pool := { p with keepAlive := n }

/-- Modelled from the spec: the boolean keep-alive mutator (declared in
Pool.h, absent from src/) — `true` maps to the default-timeout sentinel,
`false` to 0. -/
def Pool.setKeepAliveBool (p : Pool) (enable : Bool) : Pool :=
  p.setKeepAliveInt (if enable then kKeepAliveTimeout else 0)

/-- Modelled from the spec: the config is valid iff its endpoint is valid
(accessor in Pool.h, absent from src/). -/
def Pool.isValid (p : Pool) : Bool := p.url.isValid

/-- Modelled from the spec: TLS if explicitly requested (flag) OR implied by
the endpoint scheme (accessor in Pool.h, absent from src/). -/
def Pool.isTLS (p : Pool) : Bool := p.flags.tls || p.url.isTLS

/-- `Pool::Pool(const char *url)`: only the endpoint is set, everything else
keeps its default. -/
def Pool.fromUrl (url : Option String) : Pool := { url := Url.parse url }

/-- `Pool::Pool(host, port, user, password, keepAlive, tls)`: direct field
assignment, the TLS argument forced onto the flag set. -/
def Pool.fromHost (host : String) (port : Nat) (user password : Option String)
    (keepAlive : Int) (tls : Bool) : Pool :=
  { keepAlive := keepAlive,
    flags := { enabled := true, tls := tls },
    password := password,
    user := user,
    url := Url.build host port tls }

/-- `Pool::Pool(const rapidjson::Value &object)`: the decode path.  A missing
or unparseable url short-circuits with everything else left at defaults;
otherwise fields are read, the mode is derived (a valid self-select endpoint
wins over the daemon flag), and keep-alive accepts either an int or a bool. -/
def Pool.fromJSON (o : JsonObject) : Pool :=
  let url := Url.parse (Json.getString o kUrl)
  if url.isValid = false then { url := url }
  else
    let p : Pool :=
      { url := url,
        user := Json.getString o kUser,
        password := Json.getString o kPass,
        rigId := Json.getString o kRigId,
        fingerprint := Json.getString o kFingerprint,
        pollInterval := Json.getUint64 o kDaemonPollInterval kDefaultPollInterval,
        daemon := Url.parse (Json.getString o kSelfSelect),
        flags := { enabled := Json.getBool o kEnabled true,
                   tls := Json.getBool o kTls false || url.isTLS } }
    let p :=
      if p.daemon.isValid then { p with mode := Mode.MODE_SELF_SELECT }
      else if Json.getBool o kDaemon false then { p with mode := Mode.MODE_DAEMON }
      else p
    let keepalive := Json.getValue o kKeepalive
    if keepalive.isInt then p.setKeepAliveInt keepalive.getInt
    else if keepalive.isBool then p.setKeepAliveBool keepalive.getBool
    else p

/-- `Pool::isEnabled()`: build-time capability gates first (TLS support,
daemon/self-select transport), then the enabled flag and validity. -/
def Pool.isEnabled (p : Pool) (featTLS featHTTP : Bool) : Bool :=
  if !featTLS && p.isTLS then false
  else if !featHTTP && (p.mode == Mode.MODE_DAEMON) then false
  else if !featHTTP && (p.mode == Mode.MODE_SELF_SELECT) then false
  else p.flags.enabled && p.isValid

/-- `Pool::isEqual()`: field-by-field comparison. -/
def Pool.isEqual (a b : Pool) : Bool :=
  (a.flags == b.flags)
  && (a.keepAlive == b.keepAlive)
  && (a.mode == b.mode)
  && (a.fingerprint == b.fingerprint)
  && (a.password == b.password)
  && (a.rigId == b.rigId)
  && (a.url == b.url)
  && (a.user == b.user)
  && (a.pollInterval == b.pollInterval)
  && (a.daemon == b.daemon)

/-- `Pool::toJSON()`: the encode path with its mode-dependent field sets. -/
def Pool.toJSON (p : Pool) : JsonObject :=
  [(kUrl, strToJSON p.url.url), (kUser, strToJSON p.user)]
  ++ (if p.mode != Mode.MODE_DAEMON then
        [(kPass, strToJSON p.password),
         (kRigId, strToJSON p.rigId),
         (kKeepalive,
           if p.keepAlive == 0 || p.keepAlive == kKeepAliveTimeout then
             JsonValue.bool (decide (0 < p.keepAlive))
           else JsonValue.num p.keepAlive)]
      else [])
  ++ [(kEnabled, JsonValue.bool p.flags.enabled),
      (kTls, JsonValue.bool p.isTLS),
      (kFingerprint, strToJSON p.fingerprint),
      (kDaemon, JsonValue.bool (p.mode == Mode.MODE_DAEMON))]
  ++ (if p.mode == Mode.MODE_DAEMON then
        [(kDaemonPollInterval, JsonValue.num (Int.ofNat p.pollInterval))]
      else [(kSelfSelect, strToJSON p.daemon.url)])

/-- Modelled from the spec: the ANSI escape introducer (`CSI`, from the log
header, absent from src/; the exact codes are an implementation detail). -/
def CSI : String := "\x1b["

/-- Modelled from the spec: the ANSI reset suffix (`CLEAR`, from the log
header, absent from src/). -/
def CLEAR : String := "\x1b[0m"

/-- `String::data()` as used for display; a null string shows as empty. -/
def strData : Option String → String
  | none => ""
  | some s => s

/-- `Pool::printableName()`: the color-annotated endpoint, with a second
segment appended in self-select mode. -/
def Pool.printableName (p : Pool) (featTLS featHTTP : Bool) : String :=
  let out := CSI ++ "1;"
    ++ toString (if p.isEnabled featTLS featHTTP then (if p.isTLS then 32 else 36) else 31)
    ++ "m" ++ strData p.url.url ++ CLEAR
  if p.mode == Mode.MODE_SELF_SELECT then
    out ++ " self-select " ++ CSI ++ "1;"
      ++ toString (if p.daemon.isTLS then 32 else 36)
      ++ "m" ++ strData p.daemon.url ++ CLEAR
  else out

/-- One color-wrapped segment of the printable name. -/
def colorSeg (code : Nat) (s : String) : String :=
  CSI ++ "1;" ++ toString code ++ "m" ++ s ++ CLEAR

/-! ## Concrete inputs used by counterexamples and witnesses -/

/-- A valid POOL-mode object carrying a non-default daemon-poll-interval. -/
def objRoundtripCex : JsonObject :=
  [(kUrl, JsonValue.str "pool.example.com:3333"),
   (kDaemonPollInterval, JsonValue.num 7)]

/-- A valid SELF_SELECT-mode object with credentials and an integer keepalive. -/
def objRoundtripW : JsonObject :=
  [(kUrl, JsonValue.str "pool.example.com:3333"),
   (kSelfSelect, JsonValue.str "daemon.example.com:18081"),
   (kKeepalive, JsonValue.num 42),
   (kRigId, JsonValue.str "rig1")]

/-- An object with no url but a valid self-select endpoint and daemon=true. -/
def objModeCex : JsonObject :=
  [(kSelfSelect, JsonValue.str "daemon.example.com:18081"),
   (kDaemon, JsonValue.bool true)]

/-- A valid object with both a valid self-select endpoint and daemon=true. -/
def objModeW : JsonObject :=
  [(kUrl, JsonValue.str "pool.example.com:3333"),
   (kSelfSelect, JsonValue.str "daemon.example.com:18081"),
   (kDaemon, JsonValue.bool true)]

/-- An object with no url but several other populated fields. -/
def objInvalidW : JsonObject :=
  [(kUser, JsonValue.str "wallet"), (kDaemon, JsonValue.bool true)]

/-- A decoded config with rig id "rig-a". -/
def poolRigA : Pool :=
  Pool.fromJSON [(kUrl, JsonValue.str "pool.example.com:3333"),
                 (kRigId, JsonValue.str "rig-a")]

/-- A decoded config differing from `poolRigA` only in the rig id. -/
def poolRigB : Pool :=
  Pool.fromJSON [(kUrl, JsonValue.str "pool.example.com:3333"),
                 (kRigId, JsonValue.str "rig-b")]

/-- A valid POOL-mode object with an integer keepalive of 42. -/
def objKeepW : JsonObject :=
  [(kUrl, JsonValue.str "pool.example.com:3333"), (kKeepalive, JsonValue.num 42)]

/-- A disabled self-select config over plaintext endpoints. -/
def objColorCex : JsonObject :=
  [(kUrl, JsonValue.str "pool.example.com:3333"),
   (kEnabled, JsonValue.bool false),
   (kSelfSelect, JsonValue.str "daemon.example.com:18081")]

/-- A valid POOL-mode object carrying daemon-poll-interval 5. -/
def objPollW : JsonObject :=
  [(kUrl, JsonValue.str "pool.example.com:3333"),
   (kDaemonPollInterval, JsonValue.num 5)]

/-! ## Basic lemmas -/

theorem asStr_strToJSON (x : Option String) : JsonValue.asStr (strToJSON x) = x := by
  cases x <;> rfl

theorem Url.invalid_isValid : Url.invalid.isValid = false := rfl

theorem Url.invalid_url : Url.invalid.url = none := rfl

/-- Every output of the host/port splitter is either the canonical invalid
endpoint or a valid endpoint remembering the full input string. -/
theorem Url.fromChars_spec (s : String) (tls : Bool) (base : List Char) :
    Url.fromChars s tls base = Url.invalid
    ∨ ((Url.fromChars s tls base).url = some s
        ∧ (Url.fromChars s tls base).isValid = true) := by
  unfold Url.fromChars
  split
  · exact Or.inl rfl
  · split
    · exact Or.inr ⟨rfl, rfl⟩
    · split
      · exact Or.inl rfl
      · split
        · split
          · exact Or.inr ⟨rfl, rfl⟩
          · exact Or.inl rfl
        · exact Or.inl rfl
    · exact Or.inl rfl

/-- Every parse result is either the canonical invalid endpoint or a valid
endpoint remembering the full input string. -/
theorem Url.parseStr_spec (s : String) :
    Url.parseStr s = Url.invalid
    ∨ ((Url.parseStr s).url = some s ∧ (Url.parseStr s).isValid = true) := by
  unfold Url.parseStr
  split
  · exact Or.inl rfl
  · exact Url.fromChars_spec s _ _

/-- An invalid parse result is exactly the canonical invalid endpoint. -/
theorem Url.parse_invalid_eq (x : Option String) (h : (Url.parse x).isValid = false) :
    Url.parse x = Url.invalid := by
  cases x with
  | none => rfl
  | some s =>
    rcases Url.parseStr_spec s with hc | ⟨_, hv⟩
    · exact hc
    · exact absurd hv (by simp [Url.parse] at h; simp [h])

/-- Re-parsing the stored url string of a valid parse result reproduces it. -/
theorem Url.parse_reparse (x : Option String) (h : (Url.parse x).isValid = true) :
    Url.parse ((Url.parse x).url) = Url.parse x := by
  cases x with
  | none => rfl
  | some s =>
    rcases Url.parseStr_spec s with hc | ⟨hu, _⟩
    · rw [show Url.parse (some s) = Url.parseStr s from rfl, hc] at h
      exact absurd h (by simp [Url.invalid_isValid])
    · rw [show Url.parse (some s) = Url.parseStr s from rfl, hu]
      rfl

/-! ## Members of the encoded object -/

theorem tj_url (p : Pool) : jfind p.toJSON kUrl = some (strToJSON p.url.url) := by
  cases hm : p.mode <;>
    simp [Pool.toJSON, jfind, hm, kUrl, kUser, kPass, kRigId, kKeepalive, kEnabled,
      kTls, kFingerprint, kDaemon, kDaemonPollInterval, kSelfSelect]

theorem tj_user (p : Pool) : jfind p.toJSON kUser = some (strToJSON p.user) := by
  cases hm : p.mode <;>
    simp [Pool.toJSON, jfind, hm, kUrl, kUser, kPass, kRigId, kKeepalive, kEnabled,
      kTls, kFingerprint, kDaemon, kDaemonPollInterval, kSelfSelect]

theorem tj_pass (p : Pool) :
    jfind p.toJSON kPass =
      (if p.mode == Mode.MODE_DAEMON then none else some (strToJSON p.password)) := by
  cases hm : p.mode <;>
    simp [Pool.toJSON, jfind, hm, kUrl, kUser, kPass, kRigId, kKeepalive, kEnabled,
      kTls, kFingerprint, kDaemon, kDaemonPollInterval, kSelfSelect]

theorem tj_rigid (p : Pool) :
    jfind p.toJSON kRigId =
      (if p.mode == Mode.MODE_DAEMON then none else some (strToJSON p.rigId)) := by
  cases hm : p.mode <;>
    simp [Pool.toJSON, jfind, hm, kUrl, kUser, kPass, kRigId, kKeepalive, kEnabled,
      kTls, kFingerprint, kDaemon, kDaemonPollInterval, kSelfSelect]

theorem tj_keepalive (p : Pool) :
    jfind p.toJSON kKeepalive =
      (if p.mode == Mode.MODE_DAEMON then none
       else some (if p.keepAlive == 0 || p.keepAlive == kKeepAliveTimeout then
                    JsonValue.bool (decide (0 < p.keepAlive))
                  else JsonValue.num p.keepAlive)) := by
  cases hm : p.mode <;>
    simp [Pool.toJSON, jfind, hm, kUrl, kUser, kPass, kRigId, kKeepalive, kEnabled,
      kTls, kFingerprint, kDaemon, kDaemonPollInterval, kSelfSelect]

theorem tj_enabled (p : Pool) :
    jfind p.toJSON kEnabled = some (JsonValue.bool p.flags.enabled) := by
  cases hm : p.mode <;>
    simp [Pool.toJSON, jfind, hm, kUrl, kUser, kPass, kRigId, kKeepalive, kEnabled,
      kTls, kFingerprint, kDaemon, kDaemonPollInterval, kSelfSelect]

theorem tj_tls (p : Pool) : jfind p.toJSON kTls = some (JsonValue.bool p.isTLS) := by
  cases hm : p.mode <;>
    simp [Pool.toJSON, jfind, hm, kUrl, kUser, kPass, kRigId, kKeepalive, kEnabled,
      kTls, kFingerprint, kDaemon, kDaemonPollInterval, kSelfSelect]

theorem tj_fp (p : Pool) :
    jfind p.toJSON kFingerprint = some (strToJSON p.fingerprint) := by
  cases hm : p.mode <;>
    simp [Pool.toJSON, jfind, hm, kUrl, kUser, kPass, kRigId, kKeepalive, kEnabled,
      kTls, kFingerprint, kDaemon, kDaemonPollInterval, kSelfSelect]

theorem tj_daemonflag (p : Pool) :
    jfind p.toJSON kDaemon = some (JsonValue.bool (p.mode == Mode.MODE_DAEMON)) := by
  cases hm : p.mode <;>
    simp [Pool.toJSON, jfind, hm, kUrl, kUser, kPass, kRigId, kKeepalive, kEnabled,
      kTls, kFingerprint, kDaemon, kDaemonPollInterval, kSelfSelect]

theorem tj_dpi (p : Pool) :
    jfind p.toJSON kDaemonPollInterval =
      (if p.mode == Mode.MODE_DAEMON then some (JsonValue.num (Int.ofNat p.pollInterval))
       else none) := by
  cases hm : p.mode <;>
    simp [Pool.toJSON, jfind, hm, kUrl, kUser, kPass, kRigId, kKeepalive, kEnabled,
      kTls, kFingerprint, kDaemon, kDaemonPollInterval, kSelfSelect]

theorem tj_ssel (p : Pool) :
    jfind p.toJSON kSelfSelect =
      (if p.mode == Mode.MODE_DAEMON then none else some (strToJSON p.daemon.url)) := by
  cases hm : p.mode <;>
    simp [Pool.toJSON, jfind, hm, kUrl, kUser, kPass, kRigId, kKeepalive, kEnabled,
      kTls, kFingerprint, kDaemon, kDaemonPollInterval, kSelfSelect]

/-! ## Equality lemmas -/

theorem Pool.isEqual_iff (a b : Pool) :
    a.isEqual b = true ↔
      (a.flags = b.flags ∧ a.keepAlive = b.keepAlive ∧ a.mode = b.mode
        ∧ a.fingerprint = b.fingerprint ∧ a.password = b.password ∧ a.rigId = b.rigId
        ∧ a.url = b.url ∧ a.user = b.user ∧ a.pollInterval = b.pollInterval
        ∧ a.daemon = b.daemon) := by
  simp [Pool.isEqual, Bool.and_eq_true, beq_iff_eq, and_assoc]

theorem Pool.isEqual_self (p : Pool) : p.isEqual p = true := by
  simp [Pool.isEqual]

/-! ## Characterization of the decode path on a valid url -/

/-- On a valid url, the decode path populates every field as the direct
read-out of the object (with the mode decision and the int-or-bool keep-alive
acceptance written as expressions). -/
theorem Pool.fromJSON_eq (o : JsonObject)
    (hu : (Url.parse (Json.getString o kUrl)).isValid = true) :
    Pool.fromJSON o =
      { keepAlive :=
          (if (Json.getValue o kKeepalive).isInt then (Json.getValue o kKeepalive).getInt
           else if (Json.getValue o kKeepalive).isBool then
             (if (Json.getValue o kKeepalive).getBool then kKeepAliveTimeout else 0)
           else 0),
        flags := { enabled := Json.getBool o kEnabled true,
                   tls := Json.getBool o kTls false || (Url.parse (Json.getString o kUrl)).isTLS },
        mode :=
          (if (Url.parse (Json.getString o kSelfSelect)).isValid then Mode.MODE_SELF_SELECT
           else if Json.getBool o kDaemon false then Mode.MODE_DAEMON else Mode.MODE_POOL),
        fingerprint := Json.getString o kFingerprint,
        password := Json.getString o kPass,
        rigId := Json.getString o kRigId,
        user := Json.getString o kUser,
        pollInterval := Json.getUint64 o kDaemonPollInterval kDefaultPollInterval,
        url := Url.parse (Json.getString o kUrl),
        daemon := Url.parse (Json.getString o kSelfSelect) } := by
  unfold Pool.fromJSON
  simp only [hu, Bool.true_eq_false, if_false]
  by_cases hss : (Url.parse (Json.getString o kSelfSelect)).isValid = true <;>
    by_cases hdf : Json.getBool o kDaemon false = true <;>
    by_cases hki : (Json.getValue o kKeepalive).isInt = true <;>
    by_cases hkb : (Json.getValue o kKeepalive).isBool = true <;>
    simp_all [Pool.setKeepAliveInt, Pool.setKeepAliveBool]

/-- `Json::getUint64` keeps its result inside the uint64 range whenever the
default is. -/
theorem Json.getUint64_lt (o : JsonObject) (k : String) (d : Nat)
    (hd : d < 18446744073709551616) :
    Json.getUint64 o k d < 18446744073709551616 := by
  unfold Json.getUint64
  split
  · split
    · next h => omega
    · exact hd
  · exact hd


/-- `Pool::Pool(object)`: the url field of the result is always the parse of
the object's url member, on both the valid and the short-circuit path. -/
theorem Pool.fromJSON_url (o : JsonObject) :
    (Pool.fromJSON o).url = Url.parse (Json.getString o kUrl) := by
  by_cases hu : (Url.parse (Json.getString o kUrl)).isValid = true
  · rw [Pool.fromJSON_eq o hu]
  · have h2 : (Url.parse (Json.getString o kUrl)).isValid = false := by
      revert hu; cases (Url.parse (Json.getString o kUrl)).isValid <;> simp
    unfold Pool.fromJSON
    simp [h2]

/-- Core round-trip: encoding and re-decoding reproduces any configuration
whose stored state is reachable and whose fields survive the mode-dependent
encoding (pollInterval at its default outside daemon mode; password, rig id
and keep-alive at their defaults in daemon mode). -/
theorem Pool.fromJSON_toJSON (p : Pool)
    (hv : p.isValid = true)
    (hre : Url.parse p.url.url = p.url)
    (htls : p.url.tls = true → p.flags.tls = true)
    (hss : p.mode = Mode.MODE_SELF_SELECT →
      Url.parse p.daemon.url = p.daemon ∧ p.daemon.isValid = true)
    (hssn : p.mode ≠ Mode.MODE_SELF_SELECT → p.daemon = Url.invalid)
    (hpi : p.mode ≠ Mode.MODE_DAEMON → p.pollInterval = kDefaultPollInterval)
    (hpi64 : p.pollInterval < 18446744073709551616)
    (hdm : p.mode = Mode.MODE_DAEMON → p.password = none ∧ p.rigId = none ∧ p.keepAlive = 0)
    (hka : -2147483648 ≤ p.keepAlive ∧ p.keepAlive < 2147483648) :
    Pool.fromJSON p.toJSON = p := by
  have hgsUrl : Json.getString p.toJSON kUrl = p.url.url := by
    simp [Json.getString, tj_url, asStr_strToJSON]
  have hu : (Url.parse (Json.getString p.toJSON kUrl)).isValid = true := by
    rw [hgsUrl, hre]; exact hv
  have hUrl2 : Url.parse (Json.getString p.toJSON kUrl) = p.url := by rw [hgsUrl, hre]
  have hgsUser : Json.getString p.toJSON kUser = p.user := by
    simp [Json.getString, tj_user, asStr_strToJSON]
  have hgsFp : Json.getString p.toJSON kFingerprint = p.fingerprint := by
    simp [Json.getString, tj_fp, asStr_strToJSON]
  have hEn : Json.getBool p.toJSON kEnabled true = p.flags.enabled := by
    simp [Json.getBool, tj_enabled]
  have hTl : Json.getBool p.toJSON kTls false = p.isTLS := by
    simp [Json.getBool, tj_tls]
  have hfl : (p.isTLS || p.url.isTLS) = p.flags.tls := by
    cases hx : p.url.tls with
    | true => simp [Pool.isTLS, Url.isTLS, hx, htls hx]
    | false => simp [Pool.isTLS, Url.isTLS, hx]
  rw [Pool.fromJSON_eq _ hu]
  cases hm : p.mode with
  | MODE_DAEMON =>
    have hnss : p.mode ≠ Mode.MODE_SELF_SELECT := by rw [hm]; intro hc; cases hc
    have hd2 : p.daemon = Url.invalid := hssn hnss
    have hgsPass : Json.getString p.toJSON kPass = none := by
      simp [Json.getString, tj_pass, hm]
    have hgsRig : Json.getString p.toJSON kRigId = none := by
      simp [Json.getString, tj_rigid, hm]
    have hgsSS : Json.getString p.toJSON kSelfSelect = none := by
      simp [Json.getString, tj_ssel, hm]
    have hdae : Url.parse (Json.getString p.toJSON kSelfSelect) = p.daemon := by
      rw [hgsSS, hd2]; rfl
    have hdb : Json.getBool p.toJSON kDaemon false = true := by
      simp [Json.getBool, tj_daemonflag, hm]
    have hpoll : Json.getUint64 p.toJSON kDaemonPollInterval kDefaultPollInterval
        = p.pollInterval := by
      simp [Json.getUint64, tj_dpi, hm]
      omega
    have hkv : Json.getValue p.toJSON kKeepalive = JsonValue.null := by
      simp [Json.getValue, tj_keepalive, hm]
    obtain ⟨hpw, hri, hkaz⟩ := hdm hm
    simp only [hUrl2, hgsUser, hgsFp, hEn, hTl, hfl, hgsPass, hgsRig, hdae, hdb,
      hpoll, hkv, hd2, Url.invalid_isValid, JsonValue.isInt, JsonValue.isBool,
      Bool.false_eq_true, if_false, if_true]
    refine Pool.ext ?_ ?_ ?_ ?_ ?_ ?_ ?_ ?_ ?_ ?_ <;>
      simp [hpw, hri, hkaz, hm, hd2]
  | MODE_SELF_SELECT =>
    have hnd : p.mode ≠ Mode.MODE_DAEMON := by rw [hm]; intro hc; cases hc
    obtain ⟨hreD, hvD⟩ := hss hm
    have hgsPass : Json.getString p.toJSON kPass = p.password := by
      simp [Json.getString, tj_pass, hm, asStr_strToJSON]
    have hgsRig : Json.getString p.toJSON kRigId = p.rigId := by
      simp [Json.getString, tj_rigid, hm, asStr_strToJSON]
    have hgsSS : Json.getString p.toJSON kSelfSelect = p.daemon.url := by
      simp [Json.getString, tj_ssel, hm, asStr_strToJSON]
    have hdae : Url.parse (Json.getString p.toJSON kSelfSelect) = p.daemon := by
      rw [hgsSS, hreD]
    have hdb : Json.getBool p.toJSON kDaemon false = false := by
      simp [Json.getBool, tj_daemonflag, hm]
    have hpoll : Json.getUint64 p.toJSON kDaemonPollInterval kDefaultPollInterval
        = p.pollInterval := by
      simp [Json.getUint64, tj_dpi, hm]
      exact (hpi hnd).symm
    have hkv : Json.getValue p.toJSON kKeepalive =
        (if p.keepAlive == 0 || p.keepAlive == kKeepAliveTimeout then
           JsonValue.bool (decide (0 < p.keepAlive))
         else JsonValue.num p.keepAlive) := by
      simp [Json.getValue, tj_keepalive, hm]
    have hkeq :
        (if (Json.getValue p.toJSON kKeepalive).isInt then
           (Json.getValue p.toJSON kKeepalive).getInt
         else if (Json.getValue p.toJSON kKeepalive).isBool then
           (if (Json.getValue p.toJSON kKeepalive).getBool then kKeepAliveTimeout else 0)
         else 0) = p.keepAlive := by
      rw [hkv]
      by_cases hk0 : p.keepAlive = 0
      · simp [hk0, JsonValue.isInt, JsonValue.isBool, JsonValue.getBool]
      · by_cases hk60 : p.keepAlive = kKeepAliveTimeout
        · simp [hk60, JsonValue.isInt, JsonValue.isBool, JsonValue.getBool,
            kKeepAliveTimeout]
        · have hnb : (p.keepAlive == 0 || p.keepAlive == kKeepAliveTimeout) = false := by
            simp [hk0, hk60]
          simp [hnb, JsonValue.isInt, JsonValue.getInt, hka.1, hka.2]
    simp only [hUrl2, hgsUser, hgsFp, hEn, hTl, hfl, hgsPass, hgsRig, hdae, hdb,
      hpoll, hkeq, hvD, if_true]
    refine Pool.ext ?_ ?_ ?_ ?_ ?_ ?_ ?_ ?_ ?_ ?_ <;> simp [hm]
  | MODE_POOL =>
    have hnd : p.mode ≠ Mode.MODE_DAEMON := by rw [hm]; intro hc; cases hc
    have hnss : p.mode ≠ Mode.MODE_SELF_SELECT := by rw [hm]; intro hc; cases hc
    have hd2 : p.daemon = Url.invalid := hssn hnss
    have hgsPass : Json.getString p.toJSON kPass = p.password := by
      simp [Json.getString, tj_pass, hm, asStr_strToJSON]
    have hgsRig : Json.getString p.toJSON kRigId = p.rigId := by
      simp [Json.getString, tj_rigid, hm, asStr_strToJSON]
    have hgsSS : Json.getString p.toJSON kSelfSelect = p.daemon.url := by
      simp [Json.getString, tj_ssel, hm, asStr_strToJSON]
    have hdae : Url.parse (Json.getString p.toJSON kSelfSelect) = p.daemon := by
      rw [hgsSS, hd2]; rfl
    have hdb : Json.getBool p.toJSON kDaemon false = false := by
      simp [Json.getBool, tj_daemonflag, hm]
    have hpoll : Json.getUint64 p.toJSON kDaemonPollInterval kDefaultPollInterval
        = p.pollInterval := by
      simp [Json.getUint64, tj_dpi, hm]
      exact (hpi hnd).symm
    have hkv : Json.getValue p.toJSON kKeepalive =
        (if p.keepAlive == 0 || p.keepAlive == kKeepAliveTimeout then
           JsonValue.bool (decide (0 < p.keepAlive))
         else JsonValue.num p.keepAlive) := by
      simp [Json.getValue, tj_keepalive, hm]
    have hkeq :
        (if (Json.getValue p.toJSON kKeepalive).isInt then
           (Json.getValue p.toJSON kKeepalive).getInt
         else if (Json.getValue p.toJSON kKeepalive).isBool then
           (if (Json.getValue p.toJSON kKeepalive).getBool then kKeepAliveTimeout else 0)
         else 0) = p.keepAlive := by
      rw [hkv]
      by_cases hk0 : p.keepAlive = 0
      · simp [hk0, JsonValue.isInt, JsonValue.isBool, JsonValue.getBool]
      · by_cases hk60 : p.keepAlive = kKeepAliveTimeout
        · simp [hk60, JsonValue.isInt, JsonValue.isBool, JsonValue.getBool,
            kKeepAliveTimeout]
        · have hnb : (p.keepAlive == 0 || p.keepAlive == kKeepAliveTimeout) = false := by
            simp [hk0, hk60]
          simp [hnb, JsonValue.isInt, JsonValue.getInt, hka.1, hka.2]
    simp only [hUrl2, hgsUser, hgsFp, hEn, hTl, hfl, hgsPass, hgsRig, hdae, hdb,
      hpoll, hkeq, hd2, Url.invalid_isValid, Bool.false_eq_true, if_false]
    refine Pool.ext ?_ ?_ ?_ ?_ ?_ ?_ ?_ ?_ ?_ ?_ <;> simp [hm, hd2]


/-! ## Claims -/

/-- C1 (amended): round-trip.  For every valid decoded configuration, decoding
the object produced by encode yields a config that isEqual reports equal to
it, provided the fields that encode drops in its mode-dependent field sets
are at their defaults: pollInterval at the default outside daemon mode;
password, rig id and keep-alive at their defaults in daemon mode.  This holds
in all three modes. -/
theorem decode_encode_roundtrip (o : JsonObject)
    (hv : (Pool.fromJSON o).isValid = true)
    (hpi : (Pool.fromJSON o).mode ≠ Mode.MODE_DAEMON →
      (Pool.fromJSON o).pollInterval = kDefaultPollInterval)
    (hdm : (Pool.fromJSON o).mode = Mode.MODE_DAEMON →
      (Pool.fromJSON o).password = none ∧ (Pool.fromJSON o).rigId = none ∧
        (Pool.fromJSON o).keepAlive = 0) :
    Pool.isEqual (Pool.fromJSON ((Pool.fromJSON o).toJSON)) (Pool.fromJSON o) = true := by
  have hu : (Url.parse (Json.getString o kUrl)).isValid = true := by
    have h := hv
    rw [Pool.isValid, Pool.fromJSON_url] at h
    exact h
  have heq := Pool.fromJSON_eq o hu
  have hcu : (Pool.fromJSON o).url = Url.parse (Json.getString o kUrl) :=
    Pool.fromJSON_url o
  have hcd : (Pool.fromJSON o).daemon = Url.parse (Json.getString o kSelfSelect) := by
    rw [heq]
  have hcm : (Pool.fromJSON o).mode =
      (if (Url.parse (Json.getString o kSelfSelect)).isValid then Mode.MODE_SELF_SELECT
       else if Json.getBool o kDaemon false then Mode.MODE_DAEMON else Mode.MODE_POOL) := by
    rw [heq]
  have hcft : (Pool.fromJSON o).flags.tls =
      (Json.getBool o kTls false || (Url.parse (Json.getString o kUrl)).isTLS) := by
    rw [heq]
  have hcpi : (Pool.fromJSON o).pollInterval =
      Json.getUint64 o kDaemonPollInterval kDefaultPollInterval := by
    rw [heq]
  have hcka : (Pool.fromJSON o).keepAlive =
      (if (Json.getValue o kKeepalive).isInt then (Json.getValue o kKeepalive).getInt
       else if (Json.getValue o kKeepalive).isBool then
         (if (Json.getValue o kKeepalive).getBool then kKeepAliveTimeout else 0)
       else 0) := by
    rw [heq]
  have hre : Url.parse (Pool.fromJSON o).url.url = (Pool.fromJSON o).url := by
    rw [hcu]
    exact Url.parse_reparse _ hu
  have htls : (Pool.fromJSON o).url.tls = true → (Pool.fromJSON o).flags.tls = true := by
    intro hx
    rw [hcu] at hx
    rw [hcft]
    simp [Url.isTLS, hx]
  have hss : (Pool.fromJSON o).mode = Mode.MODE_SELF_SELECT →
      Url.parse (Pool.fromJSON o).daemon.url = (Pool.fromJSON o).daemon ∧
        (Pool.fromJSON o).daemon.isValid = true := by
    intro h
    rw [hcm] at h
    by_cases hd : (Url.parse (Json.getString o kSelfSelect)).isValid = true
    · rw [hcd]
      exact ⟨Url.parse_reparse _ hd, hd⟩
    · exfalso
      simp [hd] at h
      split at h <;> simp_all
  have hssn : (Pool.fromJSON o).mode ≠ Mode.MODE_SELF_SELECT →
      (Pool.fromJSON o).daemon = Url.invalid := by
    intro hne
    by_cases hd : (Url.parse (Json.getString o kSelfSelect)).isValid = true
    · exfalso
      apply hne
      rw [hcm]
      simp [hd]
    · rw [hcd]
      apply Url.parse_invalid_eq
      revert hd
      cases (Url.parse (Json.getString o kSelfSelect)).isValid <;> simp
  have hpi64 : (Pool.fromJSON o).pollInterval < 18446744073709551616 := by
    rw [hcpi]
    exact Json.getUint64_lt o kDaemonPollInterval kDefaultPollInterval (by norm_num [kDefaultPollInterval])
  have hka : -2147483648 ≤ (Pool.fromJSON o).keepAlive ∧
      (Pool.fromJSON o).keepAlive < 2147483648 := by
    rw [hcka]
    cases hjv : Json.getValue o kKeepalive with
    | null => simp [JsonValue.isInt, JsonValue.isBool]
    | bool b =>
      cases b <;> simp [JsonValue.isInt, JsonValue.isBool, JsonValue.getBool, kKeepAliveTimeout]
    | num i =>
      by_cases hb : -2147483648 ≤ i ∧ i < 2147483648
      · simp [JsonValue.isInt, JsonValue.getInt, hb.1, hb.2]
      · simp [JsonValue.isInt, JsonValue.isBool, hb]
    | str s => simp [JsonValue.isInt, JsonValue.isBool]
  rw [Pool.fromJSON_toJSON (Pool.fromJSON o) hv hre htls hss hssn hpi hpi64 hdm hka]
  exact Pool.isEqual_self _

/-- C1 counterexample to the claim as stated: a valid POOL-mode config whose
non-default pollInterval (7) is dropped by encode (which emits
daemon-poll-interval only in daemon mode), so the round-trip does NOT
reproduce every field participating in isEqual. -/
theorem decode_encode_roundtrip_cex :
    (Pool.fromJSON objRoundtripCex).isValid = true
    ∧ (Pool.fromJSON objRoundtripCex).mode = Mode.MODE_POOL
    ∧ (Pool.fromJSON objRoundtripCex).pollInterval = 7
    ∧ Pool.isEqual (Pool.fromJSON ((Pool.fromJSON objRoundtripCex).toJSON))
        (Pool.fromJSON objRoundtripCex) = false := by
  decide

/-- C1 witness: the round-trip theorem applied to a concrete SELF_SELECT
configuration. -/
theorem decode_encode_roundtrip_witness :
    Pool.isEqual (Pool.fromJSON ((Pool.fromJSON objRoundtripW).toJSON))
      (Pool.fromJSON objRoundtripW) = true :=
  decode_encode_roundtrip objRoundtripW (by decide) (by decide) (by decide)

/-- C2 (amended): mode derivation.  Provided the object's url decodes to a
valid endpoint, the decoded mode is SELF_SELECT iff the stored daemon
endpoint is valid, DAEMON iff the daemon endpoint is invalid and the boolean
daemon field was set, and POOL otherwise; the bare-url and host/port
construction paths always produce POOL with no daemon endpoint. -/
theorem mode_derivation_invariant :
    (∀ o : JsonObject, (Url.parse (Json.getString o kUrl)).isValid = true →
      (((Pool.fromJSON o).mode = Mode.MODE_SELF_SELECT) ↔
          (Pool.fromJSON o).daemon.isValid = true)
      ∧ (((Pool.fromJSON o).mode = Mode.MODE_DAEMON) ↔
          ((Pool.fromJSON o).daemon.isValid = false
            ∧ Json.getBool o kDaemon false = true))
      ∧ (((Pool.fromJSON o).mode = Mode.MODE_POOL) ↔
          ((Pool.fromJSON o).daemon.isValid = false
            ∧ Json.getBool o kDaemon false = false)))
    ∧ (∀ u : Option String, (Pool.fromUrl u).mode = Mode.MODE_POOL
        ∧ (Pool.fromUrl u).daemon = Url.invalid)
    ∧ (∀ (h : String) (pt : Nat) (us pw : Option String) (ka : Int) (t : Bool),
        (Pool.fromHost h pt us pw ka t).mode = Mode.MODE_POOL
        ∧ (Pool.fromHost h pt us pw ka t).daemon = Url.invalid) := by
  refine ⟨?_, ?_, ?_⟩
  · intro o hu
    have heq := Pool.fromJSON_eq o hu
    have hcd : (Pool.fromJSON o).daemon = Url.parse (Json.getString o kSelfSelect) := by
      rw [heq]
    have hcm : (Pool.fromJSON o).mode =
        (if (Url.parse (Json.getString o kSelfSelect)).isValid then Mode.MODE_SELF_SELECT
         else if Json.getBool o kDaemon false then Mode.MODE_DAEMON
         else Mode.MODE_POOL) := by
      rw [heq]
    rw [hcm, hcd]
    cases hd : (Url.parse (Json.getString o kSelfSelect)).isValid <;>
      cases hf : Json.getBool o kDaemon false <;> simp [hd, hf]
  · intro u
    exact ⟨rfl, rfl⟩
  · intro h pt us pw ka t
    exact ⟨rfl, rfl⟩

/-- C2 counterexample to the claim as stated: an object with a missing url,
a valid self-select endpoint and daemon=true decodes, via the short-circuit,
to POOL mode — not SELF_SELECT (nor DAEMON despite the set flag with an
invalid stored daemon endpoint). -/
theorem mode_derivation_invariant_cex :
    (Url.parse (Json.getString objModeCex kSelfSelect)).isValid = true
    ∧ Json.getBool objModeCex kDaemon false = true
    ∧ (Pool.fromJSON objModeCex).daemon.isValid = false
    ∧ (Pool.fromJSON objModeCex).mode = Mode.MODE_POOL := by
  decide

/-- C2 witness: with a valid url, a valid self-select endpoint wins over
daemon=true. -/
theorem mode_derivation_invariant_witness :
    (Pool.fromJSON objModeW).mode = Mode.MODE_SELF_SELECT :=
  ((mode_derivation_invariant.1 objModeW (by decide)).1).mpr (by decide)

/-- C3 (confirmed): isEnabled is exactly the enabled flag AND validity AND
the build-time capability gates: a TLS-flagged config needs TLS support, and
the DAEMON and SELF_SELECT modes need the daemon/self-select transport.  In
particular it is false whenever the enabled flag is false. -/
theorem isEnabled_gating (p : Pool) (featTLS featHTTP : Bool) :
    p.isEnabled featTLS featHTTP =
      (p.flags.enabled && p.isValid && (featTLS || !p.isTLS)
        && (featHTTP || (!(p.mode == Mode.MODE_DAEMON)
              && !(p.mode == Mode.MODE_SELF_SELECT)))) := by
  unfold Pool.isEnabled
  cases featTLS <;> cases featHTTP <;> cases hm : p.mode <;>
    cases he : p.flags.enabled <;> cases ht : p.isTLS <;> cases hv : p.isValid <;>
      simp [hm, he, ht, hv]

/-- C4 (confirmed): on a missing or unparseable url the decode short-circuits
into an invalid config with every other field at its default. -/
theorem decode_invalid_url_defaults (o : JsonObject)
    (hinv : (Url.parse (Json.getString o kUrl)).isValid = false) :
    Pool.fromJSON o =
      { keepAlive := 0,
        flags := { enabled := true, tls := false },
        mode := Mode.MODE_POOL,
        fingerprint := none,
        password := none,
        rigId := none,
        user := none,
        pollInterval := kDefaultPollInterval,
        url := Url.parse (Json.getString o kUrl),
        daemon := Url.invalid }
    ∧ (Pool.fromJSON o).isValid = false := by
  constructor
  · unfold Pool.fromJSON
    simp [hinv]
  · rw [Pool.isValid, Pool.fromJSON_url]
    exact hinv

/-- C4 witness: an object without a url but with populated user and daemon
fields decodes to the all-defaults invalid config. -/
theorem decode_invalid_url_defaults_witness :
    Pool.fromJSON objInvalidW =
      { keepAlive := 0,
        flags := { enabled := true, tls := false },
        mode := Mode.MODE_POOL,
        fingerprint := none,
        password := none,
        rigId := none,
        user := none,
        pollInterval := kDefaultPollInterval,
        url := Url.parse (Json.getString objInvalidW kUrl),
        daemon := Url.invalid } :=
  (decode_invalid_url_defaults objInvalidW (by decide)).1

/-- C5 (confirmed): isEqual is true iff every stored field matches exactly;
in particular two configs differing only in the rig id compare unequal. -/
theorem isEqual_fieldwise :
    (∀ a b : Pool, a.isEqual b = true ↔
      (a.flags = b.flags ∧ a.keepAlive = b.keepAlive ∧ a.mode = b.mode
        ∧ a.fingerprint = b.fingerprint ∧ a.password = b.password
        ∧ a.rigId = b.rigId ∧ a.url = b.url ∧ a.user = b.user
        ∧ a.pollInterval = b.pollInterval ∧ a.daemon = b.daemon))
    ∧ (∀ a b : Pool, a.rigId ≠ b.rigId → a.isEqual b = false) := by
  constructor
  · exact Pool.isEqual_iff
  · intro a b hne
    cases h : a.isEqual b with
    | false => rfl
    | true => exact absurd ((Pool.isEqual_iff a b).mp h).2.2.2.2.2.1 hne

/-- C5 witness: two decoded configs differing only in the rig id are
unequal. -/
theorem isEqual_fieldwise_witness : Pool.isEqual poolRigA poolRigB = false :=
  isEqual_fieldwise.2 poolRigA poolRigB (by decide)

/-- C6 (confirmed): encode always emits url, user, enabled, tls,
tls-fingerprint and a boolean daemon field equal to (mode == DAEMON); it
emits pass, rig-id and keepalive exactly when the mode is not DAEMON; and it
emits daemon-poll-interval exactly when the mode is DAEMON, otherwise a
self-select field carrying the nested daemon endpoint (unconditionally, even
when that endpoint is invalid). -/
theorem encode_field_sets (p : Pool) :
    jfind p.toJSON kUrl = some (strToJSON p.url.url)
    ∧ jfind p.toJSON kUser = some (strToJSON p.user)
    ∧ jfind p.toJSON kEnabled = some (JsonValue.bool p.flags.enabled)
    ∧ jfind p.toJSON kTls = some (JsonValue.bool p.isTLS)
    ∧ jfind p.toJSON kFingerprint = some (strToJSON p.fingerprint)
    ∧ jfind p.toJSON kDaemon = some (JsonValue.bool (p.mode == Mode.MODE_DAEMON))
    ∧ (jfind p.toJSON kPass).isSome = !(p.mode == Mode.MODE_DAEMON)
    ∧ (jfind p.toJSON kRigId).isSome = !(p.mode == Mode.MODE_DAEMON)
    ∧ (jfind p.toJSON kKeepalive).isSome = !(p.mode == Mode.MODE_DAEMON)
    ∧ (jfind p.toJSON kDaemonPollInterval).isSome = (p.mode == Mode.MODE_DAEMON)
    ∧ jfind p.toJSON kSelfSelect =
        (if p.mode == Mode.MODE_DAEMON then none else some (strToJSON p.daemon.url)) := by
  refine ⟨tj_url p, tj_user p, tj_enabled p, tj_tls p, tj_fp p, tj_daemonflag p,
    ?_, ?_, ?_, ?_, tj_ssel p⟩
  · rw [tj_pass]
    cases hmd : (p.mode == Mode.MODE_DAEMON) <;> simp [hmd]
  · rw [tj_rigid]
    cases hmd : (p.mode == Mode.MODE_DAEMON) <;> simp [hmd]
  · rw [tj_keepalive]
    cases hmd : (p.mode == Mode.MODE_DAEMON) <;> simp [hmd]
  · rw [tj_dpi]
    cases hmd : (p.mode == Mode.MODE_DAEMON) <;> simp [hmd]

/-- C7 (confirmed): outside daemon mode the keepalive field is encoded as a
boolean exactly when the stored value is 0 or the default-timeout sentinel
(the boolean being true iff the value is positive), and as the raw integer
otherwise. -/
theorem encode_keepalive_shape (p : Pool) (hnd : p.mode ≠ Mode.MODE_DAEMON) :
    ((p.keepAlive = 0 ∨ p.keepAlive = kKeepAliveTimeout) →
      jfind p.toJSON kKeepalive = some (JsonValue.bool (decide (0 < p.keepAlive))))
    ∧ (¬(p.keepAlive = 0 ∨ p.keepAlive = kKeepAliveTimeout) →
      jfind p.toJSON kKeepalive = some (JsonValue.num p.keepAlive)) := by
  have hmd : (p.mode == Mode.MODE_DAEMON) = false := by
    cases hm : p.mode <;> simp_all
  constructor
  · intro hc
    have hb : (p.keepAlive == 0 || p.keepAlive == kKeepAliveTimeout) = true := by
      rcases hc with h | h <;> simp [h]
    rw [tj_keepalive, hmd]
    simp [hb]
  · intro hc
    push_neg at hc
    have hb : (p.keepAlive == 0 || p.keepAlive == kKeepAliveTimeout) = false := by
      simp [hc.1, hc.2]
    rw [tj_keepalive, hmd]
    simp [hb]

/-- C7 witness: a decoded POOL-mode config with keep-alive 42 encodes the
keepalive field as the raw integer 42. -/
theorem encode_keepalive_shape_witness :
    jfind (Pool.fromJSON objKeepW).toJSON kKeepalive = some (JsonValue.num 42) :=
  ((encode_keepalive_shape (Pool.fromJSON objKeepW) (by decide)).2 (by decide)).trans
    (by decide)

/-- C8 (amended): printableName colors the main endpoint segment bright green
(code 32) when enabled and TLS, bright cyan (36) when enabled and plaintext,
and bright red (31) when disabled; the appended self-select daemon segment is
colored only by the daemon endpoint's own TLS status — bright green when TLS,
bright cyan otherwise — independently of enablement (never bright red). -/
theorem printable_colors (p : Pool) (featTLS featHTTP : Bool) :
    p.printableName featTLS featHTTP =
      colorSeg (if p.isEnabled featTLS featHTTP then (if p.isTLS then 32 else 36) else 31)
          (strData p.url.url)
        ++ (if p.mode == Mode.MODE_SELF_SELECT then
              " self-select "
                ++ colorSeg (if p.daemon.isTLS then 32 else 36) (strData p.daemon.url)
            else "") := by
  unfold Pool.printableName colorSeg
  cases hmd : (p.mode == Mode.MODE_SELF_SELECT) <;>
    simp [hmd, String.append_assoc, String.append_empty]

/-- C8 counterexample to the claim as stated: a disabled self-select config
gets a bright-red main segment but a bright-cyan (not bright-red) daemon
segment — the three-way enabled/TLS/disabled choice is not applied to the
daemon segment. -/
theorem printable_colors_cex :
    (Pool.fromJSON objColorCex).isEnabled true true = false
    ∧ (Pool.fromJSON objColorCex).mode = Mode.MODE_SELF_SELECT
    ∧ (Pool.fromJSON objColorCex).daemon.isTLS = false
    ∧ (Pool.fromJSON objColorCex).printableName true true
        = "\x1b[1;31mpool.example.com:3333\x1b[0m self-select \x1b[1;36mdaemon.example.com:18081\x1b[0m"
    ∧ ¬ (Pool.fromJSON objColorCex).printableName true true
        = "\x1b[1;31mpool.example.com:3333\x1b[0m self-select \x1b[1;31mdaemon.example.com:18081\x1b[0m" := by
  decide

/-- C9 (confirmed): setKeepAlive stores the default-timeout sentinel for
true, 0 for false, and passes integers (including negatives) through
unchanged. -/
theorem setKeepAlive_values (p : Pool) :
    (p.setKeepAliveBool true).keepAlive = kKeepAliveTimeout
    ∧ (p.setKeepAliveBool false).keepAlive = 0
    ∧ ∀ n : Int, (p.setKeepAliveInt n).keepAlive = n :=
  ⟨rfl, rfl, fun _ => rfl⟩

/-- C10 (confirmed): with a valid url, decode stores the object's
daemon-poll-interval (or the default) regardless of the derived mode; the
stored value participates in isEqual; and encode emits daemon-poll-interval
exactly in daemon mode. -/
theorem decode_pollinterval_any_mode :
    (∀ o : JsonObject, (Url.parse (Json.getString o kUrl)).isValid = true →
      (Pool.fromJSON o).pollInterval =
        Json.getUint64 o kDaemonPollInterval kDefaultPollInterval)
    ∧ (∀ a b : Pool, a.pollInterval ≠ b.pollInterval → a.isEqual b = false)
    ∧ (∀ p : Pool, (jfind p.toJSON kDaemonPollInterval).isSome
        = (p.mode == Mode.MODE_DAEMON)) := by
  refine ⟨?_, ?_, ?_⟩
  · intro o hu
    rw [Pool.fromJSON_eq o hu]
  · intro a b hne
    cases h : a.isEqual b with
    | false => rfl
    | true => exact absurd ((Pool.isEqual_iff a b).mp h).2.2.2.2.2.2.2.2.1 hne
  · intro p
    rw [tj_dpi]
    cases hmd : (p.mode == Mode.MODE_DAEMON) <;> simp [hmd]

/-- C10 witness: a POOL-mode decode stores a daemon-poll-interval of 5. -/
theorem decode_pollinterval_any_mode_witness :
    (Pool.fromJSON objPollW).pollInterval = 5 :=
  (decode_pollinterval_any_mode.1 objPollW (by decide)).trans (by decide)


end Xmrig
